import Mathlib

/-!
Verification of the pytest plugin template (`src/pytest_plugin/plugin.py`).

The module defines a class `PytestHooksPlugin` whose methods are the
commonly available pytest hooks: each body is a no-op apart from an
optional diagnostic `print` gated by the instance flag
`allow_hook_verbose`, and each returns Python `None`.  A module-level
singleton `pytest_hooks_plugin` is created at import time and a family
of module-level functions delegates each hook to the singleton.

The shallow embedding below models:
  * the mutable instance state (`PluginState`): the verbosity flag, the
    helper object `mytool`, and the `session` attribute assigned by
    `pytest_sessionstart`;
  * the framework-supplied argument objects as records carrying exactly
    the fields the handlers read;
  * each handler as a pure function returning the new instance state,
    the list of printed diagnostic lines, the list of method
    invocations performed on `self.mytool` (none occur in the source),
    and the Python return value (`Option PyValue`, with Python `None`
    as `Option.none`);
  * a dispatcher `runHook` over an inductive `HookCall` of all 27
    hook invocations, additionally recording the state of the
    arguments after the call (`argsAfter`), so frame properties about
    argument mutation can be stated uniformly.

Raising is modelled by totality: the handler bodies contain no `raise`
and no fallible operation, so the embedding needs no error case.
-/

set_option linter.unusedVariables false

namespace PytestPlugin

/-- Modelled from the spec: the external helper object `MyTool`
(imported from `.mytool.mytool`, whose source file is not part of the
repository snapshot).  The spec states it is "constructed once, never
invoked" and that its behavior "is undefined in the given source", so
it is modelled as an opaque token with no operations. -/
inductive MyTool
  | mk
  deriving DecidableEq

/-- A command-line option registered on the pytest `Parser` by
`parser.addoption(name, action=..., default=..., help=...)`. -/
structure OptionSpec where
  name : String
  action : String
  default : String
  help : String
  deriving DecidableEq

/-- The pytest argument parser: the list of options registered on it. -/
structure Parser where
  options : List OptionSpec
  deriving DecidableEq

/-- `Parser.addoption` registers one more option on the parser. -/
def Parser.addoption (p : Parser) (name action default help : String) : Parser :=
  { options := p.options ++ [{ name := name, action := action, default := default, help := help }] }

/-- The pytest `Config` object (opaque: no handler reads any field). -/
structure Config where
  id : Nat
  deriving DecidableEq

/-- The pytest `Session` object (opaque: no handler reads any field). -/
structure Session where
  id : Nat
  deriving DecidableEq

/-- A collected test item; handlers read `item.nodeid`. -/
structure Item where
  nodeid : String
  deriving DecidableEq

/-- The `CallInfo` object; handlers read `call.when`. -/
structure CallInfo where
  when : String
  deriving DecidableEq

/-- A test report; handlers read `nodeid`, `when` and `outcome`. -/
structure TestReport where
  nodeid : String
  when : String
  outcome : String
  deriving DecidableEq

/-- A Python function object; `pytest_generate_tests` reads the name of
`metafunc.function`. -/
structure PyFunction where
  name : String
  deriving DecidableEq

/-- The `Metafunc` object; the handler reads `metafunc.function.__name__`. -/
structure Metafunc where
  function : PyFunction
  deriving DecidableEq

/-- A fixture definition; handlers read `fixturedef.argname`. -/
structure FixtureDef where
  argname : String
  deriving DecidableEq

/-- The fixture request object (opaque: no handler reads any field). -/
structure FixtureRequest where
  id : Nat
  deriving DecidableEq

/-- A filesystem path as handled by the plugin: its printable text and
its suffix (the extension as Python `Path.suffix` yields it,
e.g. `".py"`). -/
structure Path where
  str : String
  suffix : String
  deriving DecidableEq

/-- A pytest `Collector` node (opaque: the plugin never builds or reads
one; the type exists so that `pytest_collect_file` could in principle
return one). -/
structure Collector where
  id : Nat
  deriving DecidableEq

/-- The terminal reporter (opaque: no handler reads any field). -/
structure TerminalReporter where
  id : Nat
  deriving DecidableEq

/-- A recorded warning; the handler reads `warning_message.message`. -/
structure WarningMessage where
  message : String
  deriving DecidableEq

/-- A collection tree node; `pytest_exception_interact` reads `node.nodeid`. -/
structure Node where
  nodeid : String
  deriving DecidableEq

/-- An exception representation; `pytest_internalerror` prints it. -/
structure ExcRepr where
  str : String
  deriving DecidableEq

/-- An exception info object (opaque: never read). -/
structure ExcInfo where
  id : Nat
  deriving DecidableEq

/-- A `(file, line, name)` test location tuple; modelled by its printed
text, which is all the handlers use. -/
structure Location where
  str : String
  deriving DecidableEq

/-- The mutable state of a `PytestHooksPlugin` instance: the verbosity
flag and the helper object are set by `__init__`; the `session`
attribute does not exist until `pytest_sessionstart` assigns it, hence
`Option`. -/
structure PluginState where
  allow_hook_verbose : Bool
  mytool : MyTool
  session : Option Session
  deriving DecidableEq

/-- A Python value a hook could return instead of `None`.  Every handler
in the source returns `None`, i.e. `Option.none` at type
`Option PyValue`. -/
inductive PyValue where
  | bool (b : Bool)
  | str (s : String)
  | strList (l : List String)
  | collector (c : Collector)
  | report (r : TestReport)
  | statusTuple (category shortletter verboseword : String)
  deriving DecidableEq

/-- What one handler invocation produces: the instance state after the
call, the diagnostic lines printed, the method invocations performed on
`self.mytool`, and the Python return value. -/
structure HookOut where
  state : PluginState
  output : List String
  toolCalls : List String
  ret : Option PyValue
  deriving DecidableEq

/-- Shorthand for a handler that only (possibly) prints and returns
`None`, leaving the instance state unchanged. -/
def printOnly (self : PluginState) (line : String) : HookOut :=
  { state := self,
    output := if self.allow_hook_verbose then [line] else [],
    toolCalls := [],
    ret := none }

/-- `PytestHooksPlugin.__init__`: sets `allow_hook_verbose = False` and
constructs the helper object `MyTool()`. -/
def PytestHooksPlugin.init : PluginState :=
  { allow_hook_verbose := false, mytool := MyTool.mk, session := none }

/-- `pytest_addoption` (lines 24-31): registers the single option
`--myoption` on the parser and returns `None`.  This is the only
handler that changes a passed-in object, so it returns the updated
parser alongside the usual output. -/
def PytestHooksPlugin.pytest_addoption (self : PluginState) (parser : Parser) :
    HookOut × Parser :=
  ({ state := self, output := [], toolCalls := [], ret := none },
   parser.addoption "--myoption" "store" "myoption_default"
     "Specify an argument for the plugin")

/-- `pytest_configure` (lines 33-35). -/
def PytestHooksPlugin.pytest_configure (self : PluginState) (config : Config) : HookOut :=
  printOnly self "🔧 Plugin configured"

/-- `pytest_unconfigure` (lines 37-39). -/
def PytestHooksPlugin.pytest_unconfigure (self : PluginState) (config : Config) : HookOut :=
  printOnly self "🔧 Plugin unconfigured"

/-- `pytest_sessionstart` (lines 43-46): prints when verbose, then
assigns `self.session = session`. -/
def PytestHooksPlugin.pytest_sessionstart (self : PluginState) (session : Session) : HookOut :=
  { state := { self with session := some session },
    output := if self.allow_hook_verbose then ["🚀 Session started"] else [],
    toolCalls := [],
    ret := none }

/-- `pytest_sessionfinish` (lines 48-50). -/
def PytestHooksPlugin.pytest_sessionfinish (self : PluginState) (session : Session)
    (exitstatus : Nat) : HookOut :=
  printOnly self ("🏁 Session finished with exit status: " ++ toString exitstatus)

/-- `pytest_collect_file` (lines 54-59): the suffix test gates only the
diagnostic print; the body always returns `None`. -/
def PytestHooksPlugin.pytest_collect_file (self : PluginState) (file_path : Path)
    (parent : Collector) : HookOut :=
  { state := self,
    output :=
      if file_path.suffix = ".py" then
        if self.allow_hook_verbose then ["📁 Collecting file: " ++ file_path.str] else []
      else [],
    toolCalls := [],
    ret := none }

/-- `pytest_generate_tests` (lines 61-63). -/
def PytestHooksPlugin.pytest_generate_tests (self : PluginState) (metafunc : Metafunc) : HookOut :=
  printOnly self ("⚙️ Generating tests for: " ++ metafunc.function.name)

/-- `pytest_collection_modifyitems` (lines 65-67): despite its name it
only prints the number of collected items. -/
def PytestHooksPlugin.pytest_collection_modifyitems (self : PluginState) (session : Session)
    (config : Config) (items : List Item) : HookOut :=
  printOnly self ("📝 Modifying " ++ toString items.length ++ " collected items")

/-- `pytest_collection_finish` (lines 69-71). -/
def PytestHooksPlugin.pytest_collection_finish (self : PluginState) (session : Session) : HookOut :=
  printOnly self "✅ Collection finished"

/-- `pytest_itemcollected` (lines 73-75). -/
def PytestHooksPlugin.pytest_itemcollected (self : PluginState) (item : Item) : HookOut :=
  printOnly self ("📋 Item collected: " ++ item.nodeid)

/-- `pytest_runtest_protocol` (lines 79-82): prints, then `return None`. -/
def PytestHooksPlugin.pytest_runtest_protocol (self : PluginState) (item : Item)
    (nextitem : Option Item) : HookOut :=
  printOnly self ("🔄 Running test protocol: " ++ item.nodeid)

/-- `pytest_runtest_logstart` (lines 84-86). -/
def PytestHooksPlugin.pytest_runtest_logstart (self : PluginState) (nodeid : String)
    (location : Location) : HookOut :=
  printOnly self ("📍 Test log start: " ++ nodeid ++ " - " ++ location.str)

/-- `pytest_runtest_logfinish` (lines 88-90). -/
def PytestHooksPlugin.pytest_runtest_logfinish (self : PluginState) (nodeid : String)
    (location : Location) : HookOut :=
  printOnly self ("🏁 Test log finish: " ++ nodeid)

/-- `pytest_runtest_setup` (lines 92-94). -/
def PytestHooksPlugin.pytest_runtest_setup (self : PluginState) (item : Item) : HookOut :=
  printOnly self ("🔧 Test setup: " ++ item.nodeid)

/-- `pytest_runtest_call` (lines 96-98). -/
def PytestHooksPlugin.pytest_runtest_call (self : PluginState) (item : Item) : HookOut :=
  printOnly self ("▶️ Test call: " ++ item.nodeid)

/-- `pytest_runtest_teardown` (lines 100-102). -/
def PytestHooksPlugin.pytest_runtest_teardown (self : PluginState) (item : Item)
    (nextitem : Option Item) : HookOut :=
  printOnly self ("🧹 Test teardown: " ++ item.nodeid)

/-- `pytest_runtest_makereport` (lines 104-107): prints, then `return None`. -/
def PytestHooksPlugin.pytest_runtest_makereport (self : PluginState) (item : Item)
    (call : CallInfo) : HookOut :=
  printOnly self ("📊 Making report: " ++ item.nodeid ++ " - " ++ call.when)

/-- `pytest_fixture_setup` (lines 111-113). -/
def PytestHooksPlugin.pytest_fixture_setup (self : PluginState) (fixturedef : FixtureDef)
    (request : FixtureRequest) : HookOut :=
  printOnly self ("🔧 Fixture setup: " ++ fixturedef.argname)

/-- `pytest_fixture_post_finalizer` (lines 115-117). -/
def PytestHooksPlugin.pytest_fixture_post_finalizer (self : PluginState) (fixturedef : FixtureDef)
    (request : FixtureRequest) : HookOut :=
  printOnly self ("🧹 Fixture post finalizer: " ++ fixturedef.argname)

/-- `pytest_report_header` (lines 121-123): body is `return None`, with
no print at all. -/
def PytestHooksPlugin.pytest_report_header (self : PluginState) (config : Config)
    (start_path : Path) : HookOut :=
  { state := self, output := [], toolCalls := [], ret := none }

/-- `pytest_report_collectionfinish` (lines 125-127): body is `pass`,
which in Python returns `None`. -/
def PytestHooksPlugin.pytest_report_collectionfinish (self : PluginState) (config : Config)
    (start_path : Path) (items : List Item) : HookOut :=
  { state := self, output := [], toolCalls := [], ret := none }

/-- `pytest_report_teststatus` (lines 129-132): prints, then `return None`. -/
def PytestHooksPlugin.pytest_report_teststatus (self : PluginState) (report : TestReport)
    (config : Config) : HookOut :=
  printOnly self ("📈 Test status: " ++ report.nodeid ++ " - " ++ report.outcome)

/-- `pytest_terminal_summary` (lines 134-136). -/
def PytestHooksPlugin.pytest_terminal_summary (self : PluginState)
    (terminalreporter : TerminalReporter) (exitstatus : Nat) (config : Config) : HookOut :=
  printOnly self "📋 Pytest Terminal Summary"

/-- `pytest_runtest_logreport` (lines 138-140). -/
def PytestHooksPlugin.pytest_runtest_logreport (self : PluginState) (report : TestReport) : HookOut :=
  printOnly self
    ("📋 Log report: " ++ report.nodeid ++ " - " ++ report.when ++ " - " ++ report.outcome)

/-- `pytest_warning_recorded` (lines 144-146). -/
def PytestHooksPlugin.pytest_warning_recorded (self : PluginState)
    (warning_message : WarningMessage) (when : String) (nodeid : String)
    (location : Location) : HookOut :=
  printOnly self ("⚠️ Warning recorded: " ++ warning_message.message)

/-- `pytest_exception_interact` (lines 148-150). -/
def PytestHooksPlugin.pytest_exception_interact (self : PluginState) (node : Node)
    (call : CallInfo) (report : TestReport) : HookOut :=
  printOnly self ("💥 Exception interact: " ++ node.nodeid)

/-- `pytest_internalerror` (lines 152-155): prints, then `return None`. -/
def PytestHooksPlugin.pytest_internalerror (self : PluginState) (excrepr : ExcRepr)
    (excinfo : ExcInfo) : HookOut :=
  printOnly self ("🚨 Internal error: " ++ excrepr.str)

/-- The module-level singleton `pytest_hooks_plugin = PytestHooksPlugin()`
(line 159), i.e. the state the instance has right after construction. -/
def pytest_hooks_plugin : PluginState := PytestHooksPlugin.init

/-- One invocation of a hook together with the framework-supplied
arguments, covering every handler declared on `PytestHooksPlugin`
(and, identically, every module-level hook function). -/
inductive HookCall where
  | addoption (parser : Parser)
  | configure (config : Config)
  | unconfigure (config : Config)
  | sessionstart (session : Session)
  | sessionfinish (session : Session) (exitstatus : Nat)
  | collect_file (file_path : Path) (parent : Collector)
  | generate_tests (metafunc : Metafunc)
  | collection_modifyitems (session : Session) (config : Config) (items : List Item)
  | collection_finish (session : Session)
  | itemcollected (item : Item)
  | runtest_protocol (item : Item) (nextitem : Option Item)
  | runtest_logstart (nodeid : String) (location : Location)
  | runtest_logfinish (nodeid : String) (location : Location)
  | runtest_setup (item : Item)
  | runtest_call (item : Item)
  | runtest_teardown (item : Item) (nextitem : Option Item)
  | runtest_makereport (item : Item) (call : CallInfo)
  | fixture_setup (fixturedef : FixtureDef) (request : FixtureRequest)
  | fixture_post_finalizer (fixturedef : FixtureDef) (request : FixtureRequest)
  | report_header (config : Config) (start_path : Path)
  | report_collectionfinish (config : Config) (start_path : Path) (items : List Item)
  | report_teststatus (report : TestReport) (config : Config)
  | terminal_summary (terminalreporter : TerminalReporter) (exitstatus : Nat) (config : Config)
  | runtest_logreport (report : TestReport)
  | warning_recorded (warning_message : WarningMessage) (when : String) (nodeid : String)
      (location : Location)
  | exception_interact (node : Node) (call : CallInfo) (report : TestReport)
  | internalerror (excrepr : ExcRepr) (excinfo : ExcInfo)
  deriving DecidableEq

/-- Result of dispatching one hook call: the handler's `HookOut`
together with the state of the arguments after the call, so that
argument mutation (or its absence) is observable. -/
structure HookResult where
  state : PluginState
  output : List String
  toolCalls : List String
  ret : Option PyValue
  argsAfter : HookCall
  deriving DecidableEq

/-- Packs a `HookOut` with the post-call arguments. -/
def HookResult.ofOut (o : HookOut) (argsAfter : HookCall) : HookResult :=
  { state := o.state, output := o.output, toolCalls := o.toolCalls, ret := o.ret,
    argsAfter := argsAfter }

/-- Dispatches a hook call to the corresponding method of
`PytestHooksPlugin`.  Only `pytest_addoption` changes its argument
(the parser); every other call leaves its arguments as given. -/
def runHook (self : PluginState) (c : HookCall) : HookResult :=
  match c with
  | .addoption parser =>
      let r := PytestHooksPlugin.pytest_addoption self parser
      HookResult.ofOut r.1 (.addoption r.2)
  | .configure config =>
      HookResult.ofOut (PytestHooksPlugin.pytest_configure self config) (.configure config)
  | .unconfigure config =>
      HookResult.ofOut (PytestHooksPlugin.pytest_unconfigure self config) (.unconfigure config)
  | .sessionstart session =>
      HookResult.ofOut (PytestHooksPlugin.pytest_sessionstart self session) (.sessionstart session)
  | .sessionfinish session exitstatus =>
      HookResult.ofOut (PytestHooksPlugin.pytest_sessionfinish self session exitstatus)
        (.sessionfinish session exitstatus)
  | .collect_file file_path parent =>
      HookResult.ofOut (PytestHooksPlugin.pytest_collect_file self file_path parent)
        (.collect_file file_path parent)
  | .generate_tests metafunc =>
      HookResult.ofOut (PytestHooksPlugin.pytest_generate_tests self metafunc)
        (.generate_tests metafunc)
  | .collection_modifyitems session config items =>
      HookResult.ofOut (PytestHooksPlugin.pytest_collection_modifyitems self session config items)
        (.collection_modifyitems session config items)
  | .collection_finish session =>
      HookResult.ofOut (PytestHooksPlugin.pytest_collection_finish self session)
        (.collection_finish session)
  | .itemcollected item =>
      HookResult.ofOut (PytestHooksPlugin.pytest_itemcollected self item) (.itemcollected item)
  | .runtest_protocol item nextitem =>
      HookResult.ofOut (PytestHooksPlugin.pytest_runtest_protocol self item nextitem)
        (.runtest_protocol item nextitem)
  | .runtest_logstart nodeid location =>
      HookResult.ofOut (PytestHooksPlugin.pytest_runtest_logstart self nodeid location)
        (.runtest_logstart nodeid location)
  | .runtest_logfinish nodeid location =>
      HookResult.ofOut (PytestHooksPlugin.pytest_runtest_logfinish self nodeid location)
        (.runtest_logfinish nodeid location)
  | .runtest_setup item =>
      HookResult.ofOut (PytestHooksPlugin.pytest_runtest_setup self item) (.runtest_setup item)
  | .runtest_call item =>
      HookResult.ofOut (PytestHooksPlugin.pytest_runtest_call self item) (.runtest_call item)
  | .runtest_teardown item nextitem =>
      HookResult.ofOut (PytestHooksPlugin.pytest_runtest_teardown self item nextitem)
        (.runtest_teardown item nextitem)
  | .runtest_makereport item call =>
      HookResult.ofOut (PytestHooksPlugin.pytest_runtest_makereport self item call)
        (.runtest_makereport item call)
  | .fixture_setup fixturedef request =>
      HookResult.ofOut (PytestHooksPlugin.pytest_fixture_setup self fixturedef request)
        (.fixture_setup fixturedef request)
  | .fixture_post_finalizer fixturedef request =>
      HookResult.ofOut (PytestHooksPlugin.pytest_fixture_post_finalizer self fixturedef request)
        (.fixture_post_finalizer fixturedef request)
  | .report_header config start_path =>
      HookResult.ofOut (PytestHooksPlugin.pytest_report_header self config start_path)
        (.report_header config start_path)
  | .report_collectionfinish config start_path items =>
      HookResult.ofOut (PytestHooksPlugin.pytest_report_collectionfinish self config start_path items)
        (.report_collectionfinish config start_path items)
  | .report_teststatus report config =>
      HookResult.ofOut (PytestHooksPlugin.pytest_report_teststatus self report config)
        (.report_teststatus report config)
  | .terminal_summary terminalreporter exitstatus config =>
      HookResult.ofOut (PytestHooksPlugin.pytest_terminal_summary self terminalreporter exitstatus config)
        (.terminal_summary terminalreporter exitstatus config)
  | .runtest_logreport report =>
      HookResult.ofOut (PytestHooksPlugin.pytest_runtest_logreport self report)
        (.runtest_logreport report)
  | .warning_recorded warning_message when nodeid location =>
      HookResult.ofOut (PytestHooksPlugin.pytest_warning_recorded self warning_message when nodeid location)
        (.warning_recorded warning_message when nodeid location)
  | .exception_interact node call report =>
      HookResult.ofOut (PytestHooksPlugin.pytest_exception_interact self node call report)
        (.exception_interact node call report)
  | .internalerror excrepr excinfo =>
      HookResult.ofOut (PytestHooksPlugin.pytest_internalerror self excrepr excinfo)
        (.internalerror excrepr excinfo)

/-!
Module-level hook functions (lines 162-188).  Each Python function
`pytest_X(args)` is `return pytest_hooks_plugin.pytest_X(args)`: it
acts on whatever state the module-level singleton currently has, so
each is embedded as a function of that current state `g`.
-/

/-- Line 162: `def pytest_addoption(parser): return pytest_hooks_plugin.pytest_addoption(parser)`. -/
def pytest_addoption (g : PluginState) (parser : Parser) : HookOut × Parser :=
  PytestHooksPlugin.pytest_addoption g parser

/-- Line 163. -/
def pytest_configure (g : PluginState) (config : Config) : HookOut :=
  PytestHooksPlugin.pytest_configure g config

/-- Line 164. -/
def pytest_unconfigure (g : PluginState) (config : Config) : HookOut :=
  PytestHooksPlugin.pytest_unconfigure g config

/-- Line 165. -/
def pytest_sessionstart (g : PluginState) (session : Session) : HookOut :=
  PytestHooksPlugin.pytest_sessionstart g session

/-- Line 166. -/
def pytest_sessionfinish (g : PluginState) (session : Session) (exitstatus : Nat) : HookOut :=
  PytestHooksPlugin.pytest_sessionfinish g session exitstatus

/-- Line 167. -/
def pytest_collect_file (g : PluginState) (file_path : Path) (parent : Collector) : HookOut :=
  PytestHooksPlugin.pytest_collect_file g file_path parent

/-- Line 168. -/
def pytest_generate_tests (g : PluginState) (metafunc : Metafunc) : HookOut :=
  PytestHooksPlugin.pytest_generate_tests g metafunc

/-- Line 169. -/
def pytest_collection_modifyitems (g : PluginState) (session : Session) (config : Config)
    (items : List Item) : HookOut :=
  PytestHooksPlugin.pytest_collection_modifyitems g session config items

/-- Line 170. -/
def pytest_collection_finish (g : PluginState) (session : Session) : HookOut :=
  PytestHooksPlugin.pytest_collection_finish g session

/-- Line 171. -/
def pytest_itemcollected (g : PluginState) (item : Item) : HookOut :=
  PytestHooksPlugin.pytest_itemcollected g item

/-- Line 172. -/
def pytest_runtest_protocol (g : PluginState) (item : Item) (nextitem : Option Item) : HookOut :=
  PytestHooksPlugin.pytest_runtest_protocol g item nextitem

/-- Line 173. -/
def pytest_runtest_logstart (g : PluginState) (nodeid : String) (location : Location) : HookOut :=
  PytestHooksPlugin.pytest_runtest_logstart g nodeid location

/-- Line 174. -/
def pytest_runtest_logfinish (g : PluginState) (nodeid : String) (location : Location) : HookOut :=
  PytestHooksPlugin.pytest_runtest_logfinish g nodeid location

/-- Line 175. -/
def pytest_runtest_setup (g : PluginState) (item : Item) : HookOut :=
  PytestHooksPlugin.pytest_runtest_setup g item

/-- Line 176. -/
def pytest_runtest_call (g : PluginState) (item : Item) : HookOut :=
  PytestHooksPlugin.pytest_runtest_call g item

/-- Line 177. -/
def pytest_runtest_teardown (g : PluginState) (item : Item) (nextitem : Option Item) : HookOut :=
  PytestHooksPlugin.pytest_runtest_teardown g item nextitem

/-- Line 178. -/
def pytest_runtest_makereport (g : PluginState) (item : Item) (call : CallInfo) : HookOut :=
  PytestHooksPlugin.pytest_runtest_makereport g item call

/-- Line 179. -/
def pytest_fixture_setup (g : PluginState) (fixturedef : FixtureDef)
    (request : FixtureRequest) : HookOut :=
  PytestHooksPlugin.pytest_fixture_setup g fixturedef request

/-- Line 180. -/
def pytest_fixture_post_finalizer (g : PluginState) (fixturedef : FixtureDef)
    (request : FixtureRequest) : HookOut :=
  PytestHooksPlugin.pytest_fixture_post_finalizer g fixturedef request

/-- Line 181. -/
def pytest_report_header (g : PluginState) (config : Config) (start_path : Path) : HookOut :=
  PytestHooksPlugin.pytest_report_header g config start_path

/-- Line 182. -/
def pytest_report_collectionfinish (g : PluginState) (config : Config) (start_path : Path)
    (items : List Item) : HookOut :=
  PytestHooksPlugin.pytest_report_collectionfinish g config start_path items

/-- Line 183. -/
def pytest_report_teststatus (g : PluginState) (report : TestReport) (config : Config) : HookOut :=
  PytestHooksPlugin.pytest_report_teststatus g report config

/-- Line 184. -/
def pytest_terminal_summary (g : PluginState) (terminalreporter : TerminalReporter)
    (exitstatus : Nat) (config : Config) : HookOut :=
  PytestHooksPlugin.pytest_terminal_summary g terminalreporter exitstatus config

/-- Line 185. -/
def pytest_runtest_logreport (g : PluginState) (report : TestReport) : HookOut :=
  PytestHooksPlugin.pytest_runtest_logreport g report

/-- Line 186. -/
def pytest_warning_recorded (g : PluginState) (warning_message : WarningMessage) (when : String)
    (nodeid : String) (location : Location) : HookOut :=
  PytestHooksPlugin.pytest_warning_recorded g warning_message when nodeid location

/-- Line 187. -/
def pytest_exception_interact (g : PluginState) (node : Node) (call : CallInfo)
    (report : TestReport) : HookOut :=
  PytestHooksPlugin.pytest_exception_interact g node call report

/-- Line 188. -/
def pytest_internalerror (g : PluginState) (excrepr : ExcRepr) (excinfo : ExcInfo) : HookOut :=
  PytestHooksPlugin.pytest_internalerror g excrepr excinfo

/-- Dispatches a hook call to the corresponding module-level function,
the counterpart of `runHook` for lines 162-188. -/
def runModuleHook (g : PluginState) (c : HookCall) : HookResult :=
  match c with
  | .addoption parser =>
      let r := pytest_addoption g parser
      HookResult.ofOut r.1 (.addoption r.2)
  | .configure config => HookResult.ofOut (pytest_configure g config) (.configure config)
  | .unconfigure config => HookResult.ofOut (pytest_unconfigure g config) (.unconfigure config)
  | .sessionstart session => HookResult.ofOut (pytest_sessionstart g session) (.sessionstart session)
  | .sessionfinish session exitstatus =>
      HookResult.ofOut (pytest_sessionfinish g session exitstatus) (.sessionfinish session exitstatus)
  | .collect_file file_path parent =>
      HookResult.ofOut (pytest_collect_file g file_path parent) (.collect_file file_path parent)
  | .generate_tests metafunc =>
      HookResult.ofOut (pytest_generate_tests g metafunc) (.generate_tests metafunc)
  | .collection_modifyitems session config items =>
      HookResult.ofOut (pytest_collection_modifyitems g session config items)
        (.collection_modifyitems session config items)
  | .collection_finish session =>
      HookResult.ofOut (pytest_collection_finish g session) (.collection_finish session)
  | .itemcollected item => HookResult.ofOut (pytest_itemcollected g item) (.itemcollected item)
  | .runtest_protocol item nextitem =>
      HookResult.ofOut (pytest_runtest_protocol g item nextitem) (.runtest_protocol item nextitem)
  | .runtest_logstart nodeid location =>
      HookResult.ofOut (pytest_runtest_logstart g nodeid location) (.runtest_logstart nodeid location)
  | .runtest_logfinish nodeid location =>
      HookResult.ofOut (pytest_runtest_logfinish g nodeid location) (.runtest_logfinish nodeid location)
  | .runtest_setup item => HookResult.ofOut (pytest_runtest_setup g item) (.runtest_setup item)
  | .runtest_call item => HookResult.ofOut (pytest_runtest_call g item) (.runtest_call item)
  | .runtest_teardown item nextitem =>
      HookResult.ofOut (pytest_runtest_teardown g item nextitem) (.runtest_teardown item nextitem)
  | .runtest_makereport item call =>
      HookResult.ofOut (pytest_runtest_makereport g item call) (.runtest_makereport item call)
  | .fixture_setup fixturedef request =>
      HookResult.ofOut (pytest_fixture_setup g fixturedef request) (.fixture_setup fixturedef request)
  | .fixture_post_finalizer fixturedef request =>
      HookResult.ofOut (pytest_fixture_post_finalizer g fixturedef request)
        (.fixture_post_finalizer fixturedef request)
  | .report_header config start_path =>
      HookResult.ofOut (pytest_report_header g config start_path) (.report_header config start_path)
  | .report_collectionfinish config start_path items =>
      HookResult.ofOut (pytest_report_collectionfinish g config start_path items)
        (.report_collectionfinish config start_path items)
  | .report_teststatus report config =>
      HookResult.ofOut (pytest_report_teststatus g report config) (.report_teststatus report config)
  | .terminal_summary terminalreporter exitstatus config =>
      HookResult.ofOut (pytest_terminal_summary g terminalreporter exitstatus config)
        (.terminal_summary terminalreporter exitstatus config)
  | .runtest_logreport report =>
      HookResult.ofOut (pytest_runtest_logreport g report) (.runtest_logreport report)
  | .warning_recorded warning_message when nodeid location =>
      HookResult.ofOut (pytest_warning_recorded g warning_message when nodeid location)
        (.warning_recorded warning_message when nodeid location)
  | .exception_interact node call report =>
      HookResult.ofOut (pytest_exception_interact g node call report)
        (.exception_interact node call report)
  | .internalerror excrepr excinfo =>
      HookResult.ofOut (pytest_internalerror g excrepr excinfo) (.internalerror excrepr excinfo)

/-- Modelled from the spec: the host framework's plugin manager
registry ("the host framework's registry mapping plugin instances to
the hooks they implement").  The registration call itself is not part
of the repository's source under `src/`; the spec describes the
boundary as: the adapter instance is handed to the plugin manager
under a fixed name, and unregistration removes it by that same name.
The registry is modelled as an association list from plugin names to
adapter instances. -/
def Registry : Type := List (String × PluginState)

/-- Modelled from the spec: lookup of a plugin by its registered name;
returns `none` when no plugin is registered under the name. -/
def Registry.lookupPlugin : Registry → String → Option PluginState
  | [], _ => none
  | (n, p) :: r, name => if n = name then some p else Registry.lookupPlugin r name

/-- Modelled from the spec: registration binds the adapter instance
under the given name. -/
def Registry.register (r : Registry) (name : String) (p : PluginState) : Registry :=
  (name, p) :: r

/-- Modelled from the spec: unregistration removes the entries bound to
the given name. -/
def Registry.unregister : Registry → String → Registry
  | [], _ => []
  | (n, p) :: r, name =>
      if n = name then Registry.unregister r name else (n, p) :: Registry.unregister r name

/-- C1: every hook handler declared on `PytestHooksPlugin` —
configuration, session, collection, execution, fixture, reporting and
warning/exception hooks — returns the no-opinion sentinel `None`
(`Option.none`) on all framework-shaped arguments and in all instance
states, hence for both settings of the verbosity flag.  Not raising is
reflected by `runHook` being a total function with no error case,
faithful to the handler bodies, which contain no `raise` and no
fallible operation. -/
theorem every_hook_returns_none (s : PluginState) (c : HookCall) :
    (runHook s c).ret = none := by
  cases c <;> rfl

/-- C2, counterexample: `pytest_addoption` does mutate the object
passed to it — calling it on a parser with no registered options
leaves the parser holding the newly registered `--myoption`, so the
arguments are not in the same state after the call as before it. -/
theorem hooks_never_mutate_arguments_counterexample :
    (runHook pytest_hooks_plugin (.addoption { options := [] })).argsAfter ≠
      HookCall.addoption { options := [] } := by
  decide

/-- C2, amended: every handler except `pytest_addoption` leaves all of
its arguments exactly as it received them; `pytest_addoption` changes
only the parser, by registering the single option `--myoption` on it. -/
theorem addoption_is_the_only_argument_mutation (s : PluginState) (c : HookCall) :
    (runHook s c).argsAfter =
      match c with
      | .addoption p =>
          .addoption (p.addoption "--myoption" "store" "myoption_default"
            "Specify an argument for the plugin")
      | other => other := by
  cases c <;> rfl

/-- C3: two-run noninterference of the verbosity flag.  For any fixed
hook call and any two settings of `allow_hook_verbose`, the return
value and the post-call arguments coincide, and the resulting instance
states agree once the flag itself is equalised; moreover with the flag
off no diagnostic line is emitted at all, so toggling the flag changes
only whether a diagnostic line is printed. -/
theorem verbosity_flag_noninterference (s : PluginState) (b1 b2 : Bool) (c : HookCall) :
    (runHook { s with allow_hook_verbose := b1 } c).ret =
      (runHook { s with allow_hook_verbose := b2 } c).ret ∧
    (runHook { s with allow_hook_verbose := b1 } c).argsAfter =
      (runHook { s with allow_hook_verbose := b2 } c).argsAfter ∧
    { (runHook { s with allow_hook_verbose := b1 } c).state with allow_hook_verbose := b2 } =
      (runHook { s with allow_hook_verbose := b2 } c).state ∧
    (runHook { s with allow_hook_verbose := false } c).output = [] := by
  cases c <;>
    simp [runHook, HookResult.ofOut, printOnly, PytestHooksPlugin.pytest_addoption,
      PytestHooksPlugin.pytest_configure, PytestHooksPlugin.pytest_unconfigure,
      PytestHooksPlugin.pytest_sessionstart, PytestHooksPlugin.pytest_sessionfinish,
      PytestHooksPlugin.pytest_collect_file, PytestHooksPlugin.pytest_generate_tests,
      PytestHooksPlugin.pytest_collection_modifyitems, PytestHooksPlugin.pytest_collection_finish,
      PytestHooksPlugin.pytest_itemcollected, PytestHooksPlugin.pytest_runtest_protocol,
      PytestHooksPlugin.pytest_runtest_logstart, PytestHooksPlugin.pytest_runtest_logfinish,
      PytestHooksPlugin.pytest_runtest_setup, PytestHooksPlugin.pytest_runtest_call,
      PytestHooksPlugin.pytest_runtest_teardown, PytestHooksPlugin.pytest_runtest_makereport,
      PytestHooksPlugin.pytest_fixture_setup, PytestHooksPlugin.pytest_fixture_post_finalizer,
      PytestHooksPlugin.pytest_report_header, PytestHooksPlugin.pytest_report_collectionfinish,
      PytestHooksPlugin.pytest_report_teststatus, PytestHooksPlugin.pytest_terminal_summary,
      PytestHooksPlugin.pytest_runtest_logreport, PytestHooksPlugin.pytest_warning_recorded,
      PytestHooksPlugin.pytest_exception_interact, PytestHooksPlugin.pytest_internalerror]

/-- C4: `pytest_sessionfinish`, for every non-negative integer exit
status and every session, returns `None` without error, leaves the
instance state untouched, and emits its diagnostic line if and only if
`allow_hook_verbose` is enabled. -/
theorem sessionfinish_returns_none_and_logs_iff_verbose (s : PluginState) (session : Session)
    (exitstatus : Nat) :
    (runHook s (.sessionfinish session exitstatus)).ret = none ∧
    (runHook s (.sessionfinish session exitstatus)).state = s ∧
    (runHook s (.sessionfinish session exitstatus)).output =
      (if s.allow_hook_verbose then
        ["🏁 Session finished with exit status: " ++ toString exitstatus] else []) ∧
    ((runHook s (.sessionfinish session exitstatus)).output ≠ [] ↔ s.allow_hook_verbose = true) := by
  refine ⟨rfl, rfl, rfl, ?_⟩
  by_cases h : s.allow_hook_verbose <;>
    simp [runHook, HookResult.ofOut, printOnly, PytestHooksPlugin.pytest_sessionfinish, h]

/-- C5, counterexample: the adapter instance does acquire state beyond
the verbosity flag and the helper reference — `pytest_sessionstart`
executes `self.session = session`, so calling it on the
freshly-constructed singleton changes the instance state. -/
theorem adapter_stateless_counterexample :
    (runHook pytest_hooks_plugin (.sessionstart { id := 0 })).state ≠ pytest_hooks_plugin := by
  decide

/-- C5, amended: `allow_hook_verbose` and `mytool` are never written by
any handler after construction; the only instance attribute any
handler writes is `session`, assigned (to the argument) exclusively by
`pytest_sessionstart`, and every other handler leaves the instance
state entirely unchanged. -/
theorem adapter_state_only_session_written (s : PluginState) (c : HookCall) :
    (runHook s c).state.allow_hook_verbose = s.allow_hook_verbose ∧
    (runHook s c).state.mytool = s.mytool ∧
    (runHook s c).state =
      match c with
      | .sessionstart session => { s with session := some session }
      | _ => s := by
  cases c <;> exact ⟨rfl, rfl, rfl⟩

/-- C6, counterexample: `pytest_addoption` does not register two
options — on a parser with no registered options it registers exactly
one (`--myoption`), not an optional flag plus an optional string
option. -/
theorem addoption_registers_two_options_counterexample :
    ¬ ((PytestHooksPlugin.pytest_addoption pytest_hooks_plugin { options := [] }).2.options.length
        = 2) := by
  decide

/-- C6, amended: for every parser, `pytest_addoption` registers exactly
one option — the optional string option `--myoption` with action
`store`, default `myoption_default` and its help text — appending it
to whatever was already registered; it prints nothing, returns `None`
and leaves the instance state unchanged.  (No handler reads the
option's value: `Config` carries no option values in the model because
no handler accesses any.) -/
theorem addoption_registers_exactly_myoption (s : PluginState) (p : Parser) :
    (PytestHooksPlugin.pytest_addoption s p).2.options =
      p.options ++
        [OptionSpec.mk "--myoption" "store" "myoption_default"
          "Specify an argument for the plugin"] ∧
    (PytestHooksPlugin.pytest_addoption s p).1.ret = none ∧
    (PytestHooksPlugin.pytest_addoption s p).1.state = s ∧
    (PytestHooksPlugin.pytest_addoption s p).1.output = [] :=
  ⟨rfl, rfl, rfl, rfl⟩

/-- C7: the helper object is constructed exactly once, by `__init__`
(the singleton starts with the freshly constructed `MyTool`), and no
handler on any input ever invokes a method on `self.mytool` or rebinds
the attribute. -/
theorem mytool_constructed_once_never_invoked (s : PluginState) (c : HookCall) :
    pytest_hooks_plugin.mytool = MyTool.mk ∧
    (runHook s c).toolCalls = [] ∧
    (runHook s c).state.mytool = s.mytool := by
  cases c <;> exact ⟨rfl, rfl, rfl⟩

/-- Helper for the registry round-trip: removing a name that is not
bound in the registry leaves the registry unchanged. -/
theorem Registry.unregister_of_lookup_none (r : Registry) (name : String)
    (h : Registry.lookupPlugin r name = none) : Registry.unregister r name = r := by
  induction r with
  | nil => rfl
  | cons e r ih =>
      obtain ⟨n, p⟩ := e
      by_cases hn : n = name
      · exact absurd h (by simp [Registry.lookupPlugin, hn])
      · simp only [Registry.unregister, if_neg hn]
        rw [ih (by simpa [Registry.lookupPlugin, hn] using h)]

/-- C8: registering the adapter under a name not already bound and then
unregistering it by that same name is the identity on the plugin
registry — the adapter is absent and lookup by that name returns
`none`, exactly the pre-registration state. -/
theorem register_unregister_roundtrip (r : Registry) (name : String) (p : PluginState)
    (h : Registry.lookupPlugin r name = none) :
    Registry.unregister (Registry.register r name p) name = r ∧
    Registry.lookupPlugin (Registry.unregister (Registry.register r name p) name) name = none := by
  have h1 : Registry.unregister (Registry.register r name p) name = r := by
    simp only [Registry.register, Registry.unregister, if_pos rfl]
    exact Registry.unregister_of_lookup_none r name h
  exact ⟨h1, by rw [h1]; exact h⟩

/-- C8, witness: the round-trip on the empty registry with the
singleton adapter registered under the fixed name. -/
theorem register_unregister_roundtrip_witness :
    Registry.unregister
        (Registry.register ([] : Registry) "pytest_hooks_plugin" pytest_hooks_plugin)
        "pytest_hooks_plugin" = ([] : Registry) ∧
    Registry.lookupPlugin
        (Registry.unregister
          (Registry.register ([] : Registry) "pytest_hooks_plugin" pytest_hooks_plugin)
          "pytest_hooks_plugin")
        "pytest_hooks_plugin" = none :=
  register_unregister_roundtrip [] "pytest_hooks_plugin" pytest_hooks_plugin rfl

/-- C9: each module-level hook function (lines 162-188) returns exactly
what the correspondingly named method of the singleton instance
returns on the same arguments and the same current instance state —
including the printed output, the instance state and the post-call
arguments. -/
theorem module_hooks_delegate_to_singleton (g : PluginState) (c : HookCall) :
    runModuleHook g c = runHook g c := by
  cases c <;> rfl

/-- C10: `pytest_collect_file` returns `None` — never a collector — on
every path and parent, including paths with the `.py` suffix; the
suffix test gates only the diagnostic print, which additionally
requires the verbosity flag. -/
theorem collect_file_never_claims_a_file (s : PluginState) (file_path : Path)
    (parent : Collector) :
    (runHook s (.collect_file file_path parent)).ret = none ∧
    (runHook s (.collect_file file_path parent)).state = s ∧
    (runHook s (.collect_file file_path parent)).output =
      (if file_path.suffix = ".py" then
        if s.allow_hook_verbose then ["📁 Collecting file: " ++ file_path.str] else []
      else []) :=
  ⟨rfl, rfl, rfl⟩

end PytestPlugin
